import Mathlib

/-!
Shallow embedding of the DNS message codec and server reply logic of
app/main.py (a minimal DNS server), together with theorems checking the
natural-language specification against it.

Modelling conventions:
* a Python bytearray / bytes value is a `List Nat` whose entries are < 256
  (writes enforce the bound, reads of well-formed buffers return bytes);
* a Python str is a `List Char` (a sequence of Unicode code points);
* fallible operations (out-of-range indexing, bytearray writes of values
  outside 0..255, failed asserts, invalid enum values, invalid UTF-8)
  return `Except String α`; the error string names the Python exception;
* Python indices may be negative (indexing from the end), so the byte
  accessors take `Int` offsets; slices clamp and never fail, exactly as in
  Python.
-/

/-- Resolve a Python index into a list of length `n`: negative indices count
from the end, out-of-range indices are rejected. -/
def pyIdx (n : Nat) (i : Int) : Option Nat :=
  let j : Int := if i < 0 then i + n else i
  if 0 ≤ j ∧ j < n then some j.toNat else none

/-- Python item read `data[i]` on a bytearray. -/
def pyGet (bs : List Nat) (i : Int) : Except String Nat :=
  match pyIdx bs.length i with
  | some k => .ok (bs.getD k 0)
  | none => .error "IndexError"

/-- Python item write `data[i] = v` on a bytearray: the value must be a
byte, the index must be in range. -/
def pySet (bs : List Nat) (i : Int) (v : Nat) : Except String (List Nat) :=
  match pyIdx bs.length i with
  | some k => if v < 256 then .ok (bs.set k v) else .error "ValueError"
  | none => .error "IndexError"

/-- Python slice read `bs[lo:hi]` for non-negative bounds (the only kind the
source uses for reads with both endpoints): clamps, never fails. -/
def pySliceN (bs : List Nat) (lo hi : Nat) : List Nat :=
  (bs.drop lo).take (hi - lo)

/-- Python `b & ~m` for a non-negative `b`: clears the bits of `m` in `b`.
For natural numbers this equals `b - (b &&& m)`. -/
def pyAndNot (b m : Nat) : Nat := b - (b &&& m)

/-- Decidable equality for `Except` results, so that concrete runs of the
fallible operations can be checked by evaluation. -/
instance {e a : Type} [DecidableEq e] [DecidableEq a] :
    DecidableEq (Except e a) := fun x y =>
  match x, y with
  | .ok u, .ok v =>
    if h : u = v then .isTrue (by rw [h]) else
      .isFalse (fun he => h (Except.ok.inj he))
  | .error u, .error v =>
    if h : u = v then .isTrue (by rw [h]) else
      .isFalse (fun he => h (Except.error.inj he))
  | .ok _, .error _ => .isFalse (fun he => Except.noConfusion he)
  | .error _, .ok _ => .isFalse (fun he => Except.noConfusion he)

/-- Well-formed byte buffer: every entry is a byte. -/
def BytesWf (bs : List Nat) : Prop := ∀ b ∈ bs, b < 256

/-! Generic byte-level accessors, translated from `_32bit_get`, `_32bit_set`,
`_16bit_get`, `_16bit_set`, `_bit_get`, `_bit_set`, `_bits_get`, `_bits_set`
in app/main.py. -/

/-- Source `_32bit_get(data, offset)`: big-endian 32-bit read. -/
def _32bit_get (data : List Nat) (offset : Int) : Except String Nat := do
  let b0 ← pyGet data offset
  let b1 ← pyGet data (offset + 1)
  let b2 ← pyGet data (offset + 2)
  let b3 ← pyGet data (offset + 3)
  .ok ((b0 <<< 24) + (b1 <<< 16) + (b2 <<< 8) + b3)

/-- Source `_32bit_set(data, offset, value)`: big-endian 32-bit write. -/
def _32bit_set (data : List Nat) (offset : Int) (value : Nat) :
    Except String (List Nat) := do
  let d1 ← pySet data offset ((value &&& 0xFF000000) >>> 24)
  let d2 ← pySet d1 (offset + 1) ((value &&& 0x00FF0000) >>> 16)
  let d3 ← pySet d2 (offset + 2) ((value &&& 0x0000FF00) >>> 8)
  let d4 ← pySet d3 (offset + 3) (value &&& 0x000000FF)
  .ok d4

/-- Source `_16bit_get(data, offset)`: big-endian 16-bit read. -/
def _16bit_get (data : List Nat) (offset : Int) : Except String Nat := do
  let b0 ← pyGet data offset
  let b1 ← pyGet data (offset + 1)
  .ok ((b0 <<< 8) + b1)

/-- Source `_16bit_set(data, offset, value)`: big-endian 16-bit write. -/
def _16bit_set (data : List Nat) (offset : Int) (value : Nat) :
    Except String (List Nat) := do
  let d1 ← pySet data offset ((value &&& 0xFF00) >>> 8)
  let d2 ← pySet d1 (offset + 1) (value &&& 0x00FF)
  .ok d2

/-- Source `_bit_get(data, offset, shift)`. -/
def _bit_get (data : List Nat) (offset : Int) (shift : Nat) :
    Except String Nat := do
  let b ← pyGet data offset
  .ok ((b &&& (0x01 <<< shift)) >>> shift)

/-- Source `_bit_set(data, offset, shift, value)`: clears the bit, then sets
it again if `value` is truthy (nonzero). -/
def _bit_set (data : List Nat) (offset : Int) (shift : Nat) (value : Nat) :
    Except String (List Nat) := do
  let b ← pyGet data offset
  let d1 ← pySet data offset (pyAndNot b (1 <<< shift))
  if value ≠ 0 then do
    let b1 ← pyGet d1 offset
    pySet d1 offset (b1 ||| (1 <<< shift))
  else
    .ok d1

/-- Source `_bits_get(data, offset, mask, shift)`. -/
def _bits_get (data : List Nat) (offset : Int) (mask shift : Nat) :
    Except String Nat := do
  let b ← pyGet data offset
  .ok ((b &&& mask) >>> shift)

/-- Source `_bits_set(data, offset, mask, shift, value)`: clears the masked
bits, then ors in the shifted value (the caller pre-masks the value). -/
def _bits_set (data : List Nat) (offset : Int) (mask shift value : Nat) :
    Except String (List Nat) := do
  let b ← pyGet data offset
  let d1 ← pySet data offset (pyAndNot b mask)
  let b1 ← pyGet d1 offset
  pySet d1 offset (b1 ||| (value <<< shift))

/-! String model. A Python str is a sequence of Unicode code points
(`List Char`); `len` on a str counts code points, `bytes(s, "utf-8")`
encodes to UTF-8, and `bytes.decode("utf-8")` strictly parses UTF-8. -/

/-- Python single-character split `value.split('.')`: splits on every dot,
keeping empty segments ('' .split('.') is ['']). -/
def splitDot : List Char → List (List Char)
  | [] => [[]]
  | c :: rest =>
    if c = '.' then [] :: splitDot rest
    else
      match splitDot rest with
      | s :: ss => (c :: s) :: ss
      | [] => [[c]]

/-- UTF-8 encoding of one code point (what Python emits for each char). -/
def charUtf8 (ch : Char) : List Nat :=
  let n := ch.toNat
  if n < 128 then [n]
  else if n < 2048 then [192 + n / 64, 128 + n % 64]
  else if n < 65536 then [224 + n / 4096, 128 + n / 64 % 64, 128 + n % 64]
  else [240 + n / 262144, 128 + n / 4096 % 64, 128 + n / 64 % 64, 128 + n % 64]

/-- Python `bytes(s, encoding='utf-8')`. -/
def strToUtf8 (s : List Char) : List Nat := (s.map charUtf8).flatten

/-- Build a `Char` from a code point, rejecting values that are not scalar
values (Python's strict UTF-8 decoder never produces them). -/
def mkChar (n : Nat) : Except String Char :=
  if n < 55296 ∨ (57343 < n ∧ n < 1114112) then .ok (Char.ofNat n)
  else .error "UnicodeDecodeError"

/-- Whether a byte is a UTF-8 continuation byte. -/
def utf8Cont (b : Nat) : Bool := 128 ≤ b && b < 192

/-- Python `bytes.decode("utf-8")`: strict UTF-8 decoding, rejecting stray
continuation bytes, overlong forms, surrogates and out-of-range leads. -/
def utf8Decode : List Nat → Except String (List Char)
  | [] => .ok []
  | b :: rest =>
    if b < 128 then do
      let c ← mkChar b
      let cs ← utf8Decode rest
      .ok (c :: cs)
    else if b < 194 then .error "UnicodeDecodeError"
    else if b < 224 then
      match rest with
      | c :: rest2 =>
        if utf8Cont c then do
          let ch ← mkChar ((b - 192) * 64 + (c - 128))
          let cs ← utf8Decode rest2
          .ok (ch :: cs)
        else .error "UnicodeDecodeError"
      | [] => .error "UnicodeDecodeError"
    else if b < 240 then
      match rest with
      | c :: d :: rest2 =>
        if utf8Cont c && utf8Cont d then
          let n := (b - 224) * 4096 + (c - 128) * 64 + (d - 128)
          if n < 2048 then .error "UnicodeDecodeError"
          else do
            let ch ← mkChar n
            let cs ← utf8Decode rest2
            .ok (ch :: cs)
        else .error "UnicodeDecodeError"
      | _ => .error "UnicodeDecodeError"
    else if b < 245 then
      match rest with
      | c :: d :: e :: rest2 =>
        if utf8Cont c && utf8Cont d && utf8Cont e then
          let n := (b - 240) * 262144 + (c - 128) * 4096 + (d - 128) * 64
            + (e - 128)
          if n < 65536 ∨ 1114111 < n then .error "UnicodeDecodeError"
          else do
            let ch ← mkChar n
            let cs ← utf8Decode rest2
            .ok (ch :: cs)
        else .error "UnicodeDecodeError"
      | _ => .error "UnicodeDecodeError"
    else .error "UnicodeDecodeError"

/-! Label codec, translated from `_encode_labels` / `_decode_labels`. -/

/-- Loop body of `_encode_labels`: for each segment, `arr.append(len(label))`
raises ValueError when the segment has 256 or more characters (a bytearray
holds bytes); otherwise the length byte and then the segment's UTF-8 bytes
are appended. -/
def encodeLabelsGo : List (List Char) → Except String (List Nat)
  | [] => .ok []
  | label :: rest =>
    if label.length < 256 then do
      let tail ← encodeLabelsGo rest
      .ok ((label.length :: strToUtf8 label) ++ tail)
    else .error "ValueError"

/-- Source `_encode_labels(value)`: for every dot-separated segment (also
empty ones) emit one length byte (the segment's character count, which must
fit a byte) followed by its UTF-8 bytes, then a terminating zero byte. -/
def _encode_labels (value : List Char) : Except String (List Nat) := do
  let arr ← encodeLabelsGo (splitDot value)
  .ok (arr ++ [0x00])

/-- Loop body of `_decode_labels`, with an explicit iteration bound. Each
iteration advances the offset by at least two, so any bound larger than the
buffer length is never exhausted; the source's while-loop accumulates
segments by string concatenation (with no separator), which the recursion
mirrors with list append. -/
def decodeLabelsGo (bs : List Nat) : Nat → Nat → Except String (List Char × Nat)
  | 0, _ => .error "NonTermination"
  | fuel + 1, offset => do
    let b ← pyGet bs offset
    if b = 0 then .ok ([], offset)
    else do
      let seg ← utf8Decode (pySliceN bs (offset + 1) (offset + 1 + b))
      let (rest, off2) ← decodeLabelsGo bs fuel (offset + 1 + b)
      .ok (seg ++ rest, off2)

/-- Source `_decode_labels(bytes, offset)`: read length-prefixed segments
until a zero length byte, returning the concatenated segments and the offset
of the terminator. -/
def _decode_labels (bs : List Nat) (offset : Nat) :
    Except String (List Char × Nat) :=
  decodeLabelsGo bs (bs.length + 1) offset


/-! Header codec, translated from class `DNSHeader`. -/

/-- A `DNSHeader` wraps a 12-byte buffer. -/
structure DNSHeader where
  _payload : List Nat
deriving Repr

/-- Source `DNSHeader.__init__`: asserts the payload is exactly 12 bytes. -/
def DNSHeader.make (payload : List Nat) : Except String DNSHeader :=
  if payload.length = 12 then .ok ⟨payload⟩ else .error "AssertionError"

/-- Source `DNSHeader.payload()`. -/
def DNSHeader.payload (h : DNSHeader) : List Nat := h._payload

/-- Header `id` getter: 16-bit at offset 0. -/
def DNSHeader.id (h : DNSHeader) : Except String Nat := _16bit_get h._payload 0

/-- Header `id` setter. -/
def DNSHeader.set_id (h : DNSHeader) (value : Nat) : Except String DNSHeader :=
  (_16bit_set h._payload 0 value).map DNSHeader.mk

/-- Header `qr` getter: bit 7 of byte 2. -/
def DNSHeader.qr (h : DNSHeader) : Except String Nat := _bit_get h._payload 2 7

/-- Header `qr` setter. -/
def DNSHeader.set_qr (h : DNSHeader) (value : Nat) : Except String DNSHeader :=
  (_bit_set h._payload 2 7 value).map DNSHeader.mk

/-- Header `opcode` getter: bits 3-6 of byte 2. -/
def DNSHeader.opcode (h : DNSHeader) : Except String Nat :=
  _bits_get h._payload 2 0b01111000 3

/-- Header `opcode` setter (pre-masks the value to 4 bits). -/
def DNSHeader.set_opcode (h : DNSHeader) (value : Nat) :
    Except String DNSHeader :=
  (_bits_set h._payload 2 0b01111000 3 (value &&& 0b00001111)).map DNSHeader.mk

/-- Header `aa` getter: bit 2 of byte 2. -/
def DNSHeader.aa (h : DNSHeader) : Except String Nat :=
  _bits_get h._payload 2 0b00000100 2

/-- Header `aa` setter. -/
def DNSHeader.set_aa (h : DNSHeader) (value : Nat) : Except String DNSHeader :=
  (_bits_set h._payload 2 0b00000100 2 (value &&& 0b00000001)).map DNSHeader.mk

/-- Header `tc` getter: bit 1 of byte 2. -/
def DNSHeader.tc (h : DNSHeader) : Except String Nat :=
  _bits_get h._payload 2 0b00000010 1

/-- Header `tc` setter. -/
def DNSHeader.set_tc (h : DNSHeader) (value : Nat) : Except String DNSHeader :=
  (_bits_set h._payload 2 0b00000010 1 (value &&& 0b00000001)).map DNSHeader.mk

/-- Header `rd` getter: bit 0 of byte 2. -/
def DNSHeader.rd (h : DNSHeader) : Except String Nat :=
  _bits_get h._payload 2 0b00000001 0

/-- Header `rd` setter. -/
def DNSHeader.set_rd (h : DNSHeader) (value : Nat) : Except String DNSHeader :=
  (_bits_set h._payload 2 0b00000001 0 (value &&& 0b00000001)).map DNSHeader.mk

/-- Header `ra` getter: bit 7 of byte 3. -/
def DNSHeader.ra (h : DNSHeader) : Except String Nat :=
  _bits_get h._payload 3 0b10000000 7

/-- Header `ra` setter. -/
def DNSHeader.set_ra (h : DNSHeader) (value : Nat) : Except String DNSHeader :=
  (_bits_set h._payload 3 0b10000000 7 (value &&& 0b00000001)).map DNSHeader.mk

/-- Header `z` getter: bits 4-6 of byte 3. -/
def DNSHeader.z (h : DNSHeader) : Except String Nat :=
  _bits_get h._payload 3 0b01110000 4

/-- Header `z` setter. -/
def DNSHeader.set_z (h : DNSHeader) (value : Nat) : Except String DNSHeader :=
  (_bits_set h._payload 3 0b01110000 4 (value &&& 0b00000111)).map DNSHeader.mk

/-- Header `rcode` getter: bits 0-3 of byte 3. -/
def DNSHeader.rcode (h : DNSHeader) : Except String Nat :=
  _bits_get h._payload 3 0b00001111 0

/-- Header `rcode` setter. -/
def DNSHeader.set_rcode (h : DNSHeader) (value : Nat) :
    Except String DNSHeader :=
  (_bits_set h._payload 3 0b00001111 0 (value &&& 0b00001111)).map DNSHeader.mk

/-- Header `qdcount` getter: 16-bit at offset 4. -/
def DNSHeader.qdcount (h : DNSHeader) : Except String Nat :=
  _16bit_get h._payload 4

/-- Header `qdcount` setter. -/
def DNSHeader.set_qdcount (h : DNSHeader) (value : Nat) :
    Except String DNSHeader :=
  (_16bit_set h._payload 4 value).map DNSHeader.mk

/-- Header `ancount` getter: 16-bit at offset 6. -/
def DNSHeader.ancount (h : DNSHeader) : Except String Nat :=
  _16bit_get h._payload 6

/-- Header `ancount` setter. -/
def DNSHeader.set_ancount (h : DNSHeader) (value : Nat) :
    Except String DNSHeader :=
  (_16bit_set h._payload 6 value).map DNSHeader.mk

/-- Header `nscount` getter: 16-bit at offset 8. -/
def DNSHeader.nscount (h : DNSHeader) : Except String Nat :=
  _16bit_get h._payload 8

/-- Header `nscount` setter. -/
def DNSHeader.set_nscount (h : DNSHeader) (value : Nat) :
    Except String DNSHeader :=
  (_16bit_set h._payload 8 value).map DNSHeader.mk

/-- Header `arcount` getter: 16-bit at offset 10. -/
def DNSHeader.arcount (h : DNSHeader) : Except String Nat :=
  _16bit_get h._payload 10

/-- Header `arcount` setter. -/
def DNSHeader.set_arcount (h : DNSHeader) (value : Nat) :
    Except String DNSHeader :=
  (_16bit_set h._payload 10 value).map DNSHeader.mk

/-! Enumerations `DNSRRType` and `DNSRRClass`. Python's `Enum` call
`DNSRRType(v)` raises `ValueError` for values with no member; the
`.value` functions give each member's wire integer. -/

/-- Resource-record TYPE codes (class `DNSRRType` in the source). -/
inductive DNSRRType where
  | A | NS | MD | MF | CNAME | SOA | MB | MG | MR | NULL | WKS | PTR
  | HINFO | MINFO | MX | TXT
deriving DecidableEq, Repr

/-- Wire value of each TYPE member. -/
def DNSRRType.value : DNSRRType → Nat
  | .A => 1 | .NS => 2 | .MD => 3 | .MF => 4 | .CNAME => 5 | .SOA => 6
  | .MB => 7 | .MG => 8 | .MR => 9 | .NULL => 10 | .WKS => 11 | .PTR => 12
  | .HINFO => 13 | .MINFO => 14 | .MX => 15 | .TXT => 16

/-- Python `DNSRRType(v)`: look up a member by value, `ValueError` if none. -/
def DNSRRType.ofValue (v : Nat) : Except String DNSRRType :=
  if v = 1 then .ok .A else if v = 2 then .ok .NS
  else if v = 3 then .ok .MD else if v = 4 then .ok .MF
  else if v = 5 then .ok .CNAME else if v = 6 then .ok .SOA
  else if v = 7 then .ok .MB else if v = 8 then .ok .MG
  else if v = 9 then .ok .MR else if v = 10 then .ok .NULL
  else if v = 11 then .ok .WKS else if v = 12 then .ok .PTR
  else if v = 13 then .ok .HINFO else if v = 14 then .ok .MINFO
  else if v = 15 then .ok .MX else if v = 16 then .ok .TXT
  else .error "ValueError"

/-- Resource-record CLASS codes (class `DNSRRClass` in the source). -/
inductive DNSRRClass where
  | IN | CS | CH | HS
deriving DecidableEq, Repr

/-- Wire value of each CLASS member. -/
def DNSRRClass.value : DNSRRClass → Nat
  | .IN => 1 | .CS => 2 | .CH => 3 | .HS => 4

/-- Python `DNSRRClass(v)`: look up a member by value, `ValueError` if none. -/
def DNSRRClass.ofValue (v : Nat) : Except String DNSRRClass :=
  if v = 1 then .ok .IN else if v = 2 then .ok .CS
  else if v = 3 then .ok .CH else if v = 4 then .ok .HS
  else .error "ValueError"

/-! Question codec, translated from class `DNSQuestion`. The buffer layout
is encoded-name then 2-byte type then 2-byte class; `typ`/`cls` are
addressed backward from the end of the buffer (Python `len(...) - 4` and
`len(...) - 2`). -/

/-- A `DNSQuestion` wraps its wire buffer. -/
structure DNSQuestion where
  _payload : List Nat
deriving Repr

/-- Source `DNSQuestion.payload()`. -/
def DNSQuestion.payload (q : DNSQuestion) : List Nat := q._payload

/-- Question `domain_name` getter: decode labels at offset 0. -/
def DNSQuestion.domain_name (q : DNSQuestion) : Except String (List Char) :=
  (_decode_labels q._payload 0).map Prod.fst

/-- Question `domain_name` setter: `self._payload[:-4] = _encode_labels(v)`;
the slice-assignment replaces everything before the last four bytes (and
encoding can raise for oversized segments). -/
def DNSQuestion.set_domain_name (q : DNSQuestion) (value : List Char) :
    Except String DNSQuestion := do
  let enc ← _encode_labels value
  .ok ⟨enc ++ q._payload.drop (q._payload.length - 4)⟩

/-- Question `typ` getter: 16-bit at `len - 4`, decoded as a `DNSRRType`. -/
def DNSQuestion.typ (q : DNSQuestion) : Except String DNSRRType := do
  let v ← _16bit_get q._payload ((q._payload.length : Int) - 4)
  DNSRRType.ofValue v

/-- Question `typ` setter. -/
def DNSQuestion.set_typ (q : DNSQuestion) (ty : DNSRRType) :
    Except String DNSQuestion :=
  (_16bit_set q._payload ((q._payload.length : Int) - 4) ty.value).map
    DNSQuestion.mk

/-- Question `cls` getter: 16-bit at `len - 2`, decoded as a `DNSRRClass`. -/
def DNSQuestion.cls (q : DNSQuestion) : Except String DNSRRClass := do
  let v ← _16bit_get q._payload ((q._payload.length : Int) - 2)
  DNSRRClass.ofValue v

/-- Question `cls` setter. -/
def DNSQuestion.set_cls (q : DNSQuestion) (c : DNSRRClass) :
    Except String DNSQuestion :=
  (_16bit_set q._payload ((q._payload.length : Int) - 2) c.value).map
    DNSQuestion.mk

/-! Resource-record codec, translated from class `DNSAnswer`. The fixed
type/class/ttl/length block sits right after the encoded name, addressed
through the stored name-length offset `_label_len`, which `__init__` sets
to 0 and the `name` setter updates. -/

/-- A `DNSAnswer` wraps its wire buffer plus the stored name-length. -/
structure DNSAnswer where
  _payload : List Nat
  _label_len : Nat
deriving Repr

/-- Source `DNSAnswer.__init__`: stores the payload, sets `_label_len = 0`. -/
def DNSAnswer.ofPayload (payload : List Nat) : DNSAnswer := ⟨payload, 0⟩

/-- Source `DNSAnswer.payload()`. -/
def DNSAnswer.payload (a : DNSAnswer) : List Nat := a._payload

/-- Source `DNSAnswer.labels()`: `self._payload[:-4]`. -/
def DNSAnswer.labels (a : DNSAnswer) : List Nat :=
  a._payload.take (a._payload.length - 4)

/-- Answer `name` getter: decode labels at offset 0. -/
def DNSAnswer.name (a : DNSAnswer) : Except String (List Char) :=
  (_decode_labels a._payload 0).map Prod.fst

/-- Answer `name` setter: `self._payload[:self._label_len] = bytes` then
`self._label_len = len(bytes)` (encoding can raise for oversized
segments). -/
def DNSAnswer.set_name (a : DNSAnswer) (value : List Char) :
    Except String DNSAnswer := do
  let bytes ← _encode_labels value
  .ok ⟨bytes ++ a._payload.drop a._label_len, bytes.length⟩

/-- Answer `typ` getter: 16-bit at `_label_len`. -/
def DNSAnswer.typ (a : DNSAnswer) : Except String DNSRRType := do
  let v ← _16bit_get a._payload (a._label_len : Int)
  DNSRRType.ofValue v

/-- Answer `typ` setter. -/
def DNSAnswer.set_typ (a : DNSAnswer) (ty : DNSRRType) :
    Except String DNSAnswer :=
  (_16bit_set a._payload (a._label_len : Int) ty.value).map
    (fun p => ⟨p, a._label_len⟩)

/-- Answer `cls` getter: 16-bit at `_label_len + 2`. -/
def DNSAnswer.cls (a : DNSAnswer) : Except String DNSRRClass := do
  let v ← _16bit_get a._payload ((a._label_len : Int) + 2)
  DNSRRClass.ofValue v

/-- Answer `cls` setter. -/
def DNSAnswer.set_cls (a : DNSAnswer) (c : DNSRRClass) :
    Except String DNSAnswer :=
  (_16bit_set a._payload ((a._label_len : Int) + 2) c.value).map
    (fun p => ⟨p, a._label_len⟩)

/-- Answer `ttl` getter: 32-bit at `_label_len + 4`. -/
def DNSAnswer.ttl (a : DNSAnswer) : Except String Nat :=
  _32bit_get a._payload ((a._label_len : Int) + 4)

/-- Answer `ttl` setter. -/
def DNSAnswer.set_ttl (a : DNSAnswer) (value : Nat) : Except String DNSAnswer :=
  (_32bit_set a._payload ((a._label_len : Int) + 4) value).map
    (fun p => ⟨p, a._label_len⟩)

/-- Answer `length` getter: 16-bit at `_label_len + 8`. -/
def DNSAnswer.length (a : DNSAnswer) : Except String Nat :=
  _16bit_get a._payload ((a._label_len : Int) + 8)

/-- Answer `length` setter. -/
def DNSAnswer.set_length (a : DNSAnswer) (value : Nat) :
    Except String DNSAnswer :=
  (_16bit_set a._payload ((a._label_len : Int) + 8) value).map
    (fun p => ⟨p, a._label_len⟩)

/-- Answer `data` getter: `self._payload[self._label_len + 10:]`. -/
def DNSAnswer.data (a : DNSAnswer) : List Nat :=
  a._payload.drop (a._label_len + 10)

/-- Answer `data` setter: first `self.length = len(value)`, then
`self._payload[self._label_len + 10:] = value`. -/
def DNSAnswer.set_data (a : DNSAnswer) (value : List Nat) :
    Except String DNSAnswer := do
  let a1 ← a.set_length value.length
  .ok ⟨a1._payload.take (a1._label_len + 10) ++ value, a1._label_len⟩

/-! Message assembler/parser, translated from class `DNSMessage`. -/

/-- A structured DNS message. -/
structure DNSMessage where
  header : DNSHeader
  questions : List DNSQuestion
  answers : List DNSAnswer
deriving Repr

/-- Source `DNSMessage.__init__`: stores the three parts and then writes
`header.qdcount = len(questions)` and `header.ancount = len(answers)` into
the header buffer. -/
def DNSMessage.make (header : DNSHeader) (questions : List DNSQuestion)
    (answers : List DNSAnswer) : Except String DNSMessage := do
  let h1 ← header.set_qdcount questions.length
  let h2 ← h1.set_ancount answers.length
  .ok ⟨h2, questions, answers⟩

/-- Source `DNSMessage.payload()`: header bytes, then each question's bytes
in order, then each answer's bytes in order. -/
def DNSMessage.payload (m : DNSMessage) : List Nat :=
  m.header.payload ++ (m.questions.map DNSQuestion.payload).flatten
    ++ (m.answers.map DNSAnswer.payload).flatten

/-- Question-section loop of `DNSMessage.from_bytes`: for each of `n`
questions, decode the name, step past the terminator, slice the 4-byte
type/class block, build the question and write the decoded name back into
it. -/
def parseQuestions (payload : List Nat) : Nat → Nat →
    Except String (List DNSQuestion × Nat)
  | offset, 0 => .ok ([], offset)
  | offset, n + 1 => do
    let (domainName, off1) ← _decode_labels payload offset
    let off2 := off1 + 1
    let question := DNSQuestion.mk (pySliceN payload off2 (off2 + 4))
    let off3 := off2 + 4
    let question ← question.set_domain_name domainName
    let (rest, off4) ← parseQuestions payload off3 n
    .ok (question :: rest, off4)

/-- Answer-section loop of `DNSMessage.from_bytes`: for each of `n` answers,
decode the name, step past the terminator, slice the 10-byte fixed block,
write the name back, then read the data length from the single byte after
the block and slice that many data bytes. -/
def parseAnswers (payload : List Nat) : Nat → Nat →
    Except String (List DNSAnswer × Nat)
  | offset, 0 => .ok ([], offset)
  | offset, n + 1 => do
    let (name, off1) ← _decode_labels payload offset
    let off2 := off1 + 1
    let answer := DNSAnswer.ofPayload (pySliceN payload off2 (off2 + 10))
    let off3 := off2 + 10
    let answer ← answer.set_name name
    let dataLen ← pyGet payload (off3 : Int)
    let answer ← answer.set_data (pySliceN payload (off3 + 1) (off3 + dataLen + 1))
    let off4 := off3 + dataLen + 1
    let (rest, off5) ← parseAnswers payload off4 n
    .ok (answer :: rest, off5)

/-- Source `DNSMessage.from_bytes(payload)`: parse the 12-byte header, then
`qdcount` questions, then `ancount` answers, then assemble the message. -/
def DNSMessage.from_bytes (payload : List Nat) : Except String DNSMessage := do
  let header ← DNSHeader.make (pySliceN payload 0 12)
  let qd ← header.qdcount
  let (questions, off1) ← parseQuestions payload 12 qd
  let an ← header.ancount
  let (answers, _off2) ← parseAnswers payload off1 an
  DNSMessage.make header questions answers

/-! Reply construction: the per-request logic of `main`'s loop body (between
`recvfrom` and `sendto`), with the sockets abstracted away. -/

/-- Reply-header block of `main`: a fresh 12-byte header that copies `id`,
sets `qr = 1`, copies `opcode` and `rd`, and sets `rcode` to 0 for the
standard query opcode and 4 otherwise. -/
def buildReplyHeader (requested : DNSHeader) : Except String DNSHeader := do
  let header ← DNSHeader.make (List.replicate 12 0)
  let idv ← requested.id
  let header ← header.set_id idv
  let header ← header.set_qr 1
  let opv ← requested.opcode
  let header ← header.set_opcode opv
  let rdv ← requested.rd
  let header ← header.set_rd rdv
  header.set_rcode (if opv = 0 then 0 else 4)

/-- Reply-question block of `main`: mirror each requested question's
decoded name into a fresh question with type A and class IN. -/
def buildReplyQuestion (q : DNSQuestion) : Except String DNSQuestion := do
  let dn ← q.domain_name
  let question := DNSQuestion.mk (List.replicate 4 0)
  let question ← question.set_domain_name dn
  let question ← question.set_typ DNSRRType.A
  question.set_cls DNSRRClass.IN

/-- Reply-answer block of `main`: mirror each requested answer's decoded
name into a fresh answer with type A, class IN, ttl 60, data 8.8.8.8. -/
def buildReplyAnswer (a : DNSAnswer) : Except String DNSAnswer := do
  let nm ← a.name
  let answer := DNSAnswer.ofPayload (List.replicate 10 0)
  let answer ← answer.set_name nm
  let answer ← answer.set_typ DNSRRType.A
  let answer ← answer.set_cls DNSRRClass.IN
  let answer ← answer.set_ttl 60
  answer.set_data [8, 8, 8, 8]

/-- One iteration of `main`'s serving loop on a received buffer: parse the
request, build the reply message, and serialize it. -/
def handleRequest (buf : List Nat) : Except String (List Nat) := do
  let requested ← DNSMessage.from_bytes buf
  let header ← buildReplyHeader requested.header
  let questions ← requested.questions.mapM buildReplyQuestion
  let answers ← requested.answers.mapM buildReplyAnswer
  let message ← DNSMessage.make header questions answers
  .ok message.payload

/-! Concrete wire buffers used by the claim theorems. -/

/-- Request buffer for the reply-construction claim: header with id 1234,
qr 0, opcode 0, rd 1, qdcount 1, ancount 1; one question
(name example.com, type A, class IN); one answer record (name example.com,
type A, class IN, ttl 60, 16-bit length field 4, single data-length byte 4,
data bytes 8.8.8.8). -/
def c2request : List Nat :=
  [4, 210, 1, 0, 0, 1, 0, 1, 0, 0, 0, 0]
  ++ [7, 101, 120, 97, 109, 112, 108, 101, 3, 99, 111, 109, 0, 0, 1, 0, 1]
  ++ [7, 101, 120, 97, 109, 112, 108, 101, 3, 99, 111, 109, 0]
  ++ [0, 1, 0, 1, 0, 0, 0, 60, 0, 4] ++ [4] ++ [8, 8, 8, 8]

/-- The bytes the handler actually sends back for `c2request`: reply header
(id 1234, qr 1, opcode 0, rd 1, rcode 0, qdcount 1, ancount 1), then the
question and answer sections, both carrying the name re-encoded as the
single label examplecom because `_decode_labels` drops the dots. -/
def c2response : List Nat :=
  [4, 210, 129, 0, 0, 1, 0, 1, 0, 0, 0, 0]
  ++ [10, 101, 120, 97, 109, 112, 108, 101, 99, 111, 109, 0, 0, 1, 0, 1]
  ++ [10, 101, 120, 97, 109, 112, 108, 101, 99, 111, 109, 0, 0, 1, 0, 1,
      0, 0, 0, 60, 0, 4, 8, 8, 8, 8]

/-- A buffer for the answer-parsing claim: name x, a 10-byte fixed block
(type A, class IN, ttl 60, 16-bit length field 4), then the single
data-length byte 2 and two data bytes. -/
def c9buffer : List Nat :=
  [1, 120, 0] ++ [0, 1, 0, 1, 0, 0, 0, 60, 0, 4] ++ [2] ++ [9, 9]

/-! Basic bit-arithmetic helper lemmas used to reason about the accessors. -/

theorem shiftRight_land_distrib (x y n : Nat) :
    (x &&& y) >>> n = (x >>> n) &&& (y >>> n) := by
  apply Nat.eq_of_testBit_eq
  intro i
  simp [Nat.testBit_shiftRight, Nat.testBit_and]

theorem land_ff_eq_mod (v : Nat) : v &&& 0xFF = v % 256 := by
  have h : (0xFF : Nat) = 2 ^ 8 - 1 := by norm_num
  rw [h, Nat.and_pow_two_sub_one_eq_mod]

theorem land_ff00_shr (v : Nat) : (v &&& 0xFF00) >>> 8 = v / 256 % 256 := by
  have h : (v &&& 0xFF00) >>> 8 = (v >>> 8) &&& (0xFF00 >>> 8) :=
    shiftRight_land_distrib v 0xFF00 8
  rw [h]
  have h2 : (0xFF00 : Nat) >>> 8 = 0xFF := by decide
  rw [h2, land_ff_eq_mod, Nat.shiftRight_eq_div_pow]

theorem sixteen_split_lo_lt (v : Nat) : v &&& 0xFF < 256 := by
  rw [land_ff_eq_mod]; exact Nat.mod_lt _ (by norm_num)

theorem sixteen_split_hi_lt (v : Nat) : (v &&& 0xFF00) >>> 8 < 256 := by
  rw [land_ff00_shr]; exact Nat.mod_lt _ (by norm_num)

theorem sixteen_recombine_mod (v : Nat) :
    (((v &&& 0xFF00) >>> 8) <<< 8) + (v &&& 0xFF) = v % 65536 := by
  rw [land_ff00_shr, land_ff_eq_mod, Nat.shiftLeft_eq]
  omega

theorem sixteen_recombine (v : Nat) (h : v < 65536) :
    (((v &&& 0xFF00) >>> 8) <<< 8) + (v &&& 0xFF) = v := by
  rw [sixteen_recombine_mod]; exact Nat.mod_eq_of_lt h

/-! Monad-reduction helper lemmas for `Except`, and characterization lemmas
for the primitives at non-negative in-range offsets. -/

theorem exc_bind_ok {α β : Type} (a : α) (f : α → Except String β) :
    (Except.ok a >>= f) = f a := rfl

theorem exc_map_ok {α β : Type} (a : α) (f : α → β) :
    (Except.ok a : Except String α).map f = .ok (f a) := rfl

theorem exc_map_error {α β : Type} (e : String) (f : α → β) :
    (Except.error e : Except String α).map f = .error e := rfl

theorem exc_pure_eq {α : Type} (a : α) : (pure a : Except String α) = .ok a := rfl

theorem pyIdx_coe (n k : Nat) (h : k < n) : pyIdx n ↑k = some k := by
  simp [pyIdx]
  omega

theorem pyGet_coe (bs : List Nat) (k : Nat) (h : k < bs.length) :
    pyGet bs ↑k = .ok (bs.getD k 0) := by
  simp [pyGet, pyIdx_coe bs.length k h]

theorem pySet_coe (bs : List Nat) (k : Nat) (v : Nat) (h : k < bs.length)
    (hv : v < 256) : pySet bs ↑k v = .ok (bs.set k v) := by
  simp [pySet, pyIdx_coe bs.length k h, hv]

theorem getD_set_ne (bs : List Nat) (i j a : Nat) (hne : i ≠ j) :
    (bs.set i a).getD j 0 = bs.getD j 0 := by
  simp [List.getD_eq_getElem?_getD, List.getElem?_set_ne hne]

theorem getD_set_self (bs : List Nat) (i a : Nat) (h : i < bs.length) :
    (bs.set i a).getD i 0 = a := by
  simp [List.getD_eq_getElem?_getD, List.getElem?_set_self h]

theorem natCast_add_one (k : Nat) : (↑k : Int) + 1 = ↑(k + 1) := by
  push_cast; ring

theorem sixteen_get_coe (bs : List Nat) (k : Nat) (h : k + 1 < bs.length) :
    _16bit_get bs ↑k = .ok ((bs.getD k 0 <<< 8) + bs.getD (k + 1) 0) := by
  have h0 : k < bs.length := by omega
  rw [_16bit_get, pyGet_coe bs k h0, exc_bind_ok, natCast_add_one,
    pyGet_coe bs (k + 1) h, exc_bind_ok]

theorem sixteen_set_coe (bs : List Nat) (k v : Nat) (h : k + 1 < bs.length) :
    _16bit_set bs ↑k v =
      .ok ((bs.set k ((v &&& 0xFF00) >>> 8)).set (k + 1) (v &&& 0xFF)) := by
  have h0 : k < bs.length := by omega
  have h1 : k + 1 < (bs.set k ((v &&& 0xFF00) >>> 8)).length := by simpa using h
  rw [_16bit_set, pySet_coe bs k _ h0 (sixteen_split_hi_lt v), exc_bind_ok,
    natCast_add_one, pySet_coe _ (k + 1) _ h1 (sixteen_split_lo_lt v),
    exc_bind_ok]

/-! Claim theorems. -/

/-- C1 (code bug witness evaluation): for the name a.b, encoding and then
decoding at offset 0 yields the dot-less concatenation ab together with the
terminator offset 4 — not the original name a.b that the claim (and the
spec's label round-trip invariant) requires, because the decoder
concatenates segments without re-inserting the dots. -/
theorem c1_label_roundtrip_code_bug :
    _encode_labels "a.b".data = .ok [1, 97, 1, 98, 0] ∧
    _decode_labels [1, 97, 1, 98, 0] 0 = .ok ("ab".data, 4) ∧
    "ab".data ≠ "a.b".data :=
  ⟨rfl, rfl, by decide⟩

/-- C2 (code bug witness evaluation): on the claim's request (id 1234, qr 0,
opcode 0, rd 1, qdcount 1, question example.com/A/IN, one answer record)
the handler replies with id 1234, qr 1, opcode 0, rd 1, rcode 0, one
question and one answer with type A, class IN, ttl 60 and data 8.8.8.8 —
but the reply's question section does not mirror the request's question
exactly: its name is the single label examplecom instead of the request's
two labels example, com. -/
theorem c2_reply_construction_code_bug :
    handleRequest c2request = .ok c2response ∧
    DNSHeader.id ⟨pySliceN c2response 0 12⟩ = .ok 1234 ∧
    DNSHeader.qr ⟨pySliceN c2response 0 12⟩ = .ok 1 ∧
    DNSHeader.opcode ⟨pySliceN c2response 0 12⟩ = .ok 0 ∧
    DNSHeader.rd ⟨pySliceN c2response 0 12⟩ = .ok 1 ∧
    DNSHeader.rcode ⟨pySliceN c2response 0 12⟩ = .ok 0 ∧
    DNSHeader.qdcount ⟨pySliceN c2response 0 12⟩ = .ok 1 ∧
    DNSHeader.ancount ⟨pySliceN c2response 0 12⟩ = .ok 1 ∧
    pySliceN c2response 12 28 =
      [10, 101, 120, 97, 109, 112, 108, 101, 99, 111, 109, 0, 0, 1, 0, 1] ∧
    pySliceN c2request 12 29 =
      [7, 101, 120, 97, 109, 112, 108, 101, 3, 99, 111, 109, 0, 0, 1, 0, 1] ∧
    pySliceN c2response 12 28 ≠ pySliceN c2request 12 29 ∧
    pySliceN c2response 28 54 =
      [10, 101, 120, 97, 109, 112, 108, 101, 99, 111, 109, 0, 0, 1, 0, 1,
        0, 0, 0, 60, 0, 4, 8, 8, 8, 8] :=
  ⟨rfl, rfl, rfl, rfl, rfl, rfl, rfl, rfl, rfl, rfl, by decide, rfl⟩

/-- C6 counterexample: encoding the empty name does not produce the single
zero terminator byte. -/
theorem c6_encode_empty_counterexample :
    _encode_labels "".data ≠ .ok [0x00] := by
  decide

/-- C6 amended: encoding the empty name emits a zero length byte for the
single empty segment produced by the split, followed by the zero
terminator — two zero bytes in total. -/
theorem c6_encode_empty_amended :
    _encode_labels "".data = .ok [0x00, 0x00] := by
  decide

/-- C4 counterexample: the 16-bit length field is independently settable:
writing 5 through the `length` setter of a fresh 10-byte answer leaves an
empty data region, so the length field (5) diverges from the data byte
count (0). -/
theorem c4_length_data_divergence_counterexample :
    DNSAnswer.set_length (DNSAnswer.ofPayload [0, 0, 0, 0, 0, 0, 0, 0, 0, 0]) 5
      = .ok ⟨[0, 0, 0, 0, 0, 0, 0, 0, 0, 5], 0⟩ ∧
    DNSAnswer.length ⟨[0, 0, 0, 0, 0, 0, 0, 0, 0, 5], 0⟩ = .ok 5 ∧
    (DNSAnswer.data ⟨[0, 0, 0, 0, 0, 0, 0, 0, 0, 5], 0⟩).length = 0 ∧
    (5 : Nat) ≠ 0 :=
  ⟨rfl, rfl, rfl, by decide⟩

/-- C5 counterexample: a message built from 65536 questions stores
qdcount 0, because the 16-bit write keeps only the low 16 bits of the
question count, so qdcount does not equal the number of questions. -/
theorem c5_counts_counterexample :
    (do
      let m ← DNSMessage.make ⟨List.replicate 12 0⟩
        (List.replicate 65536 (DNSQuestion.mk [])) []
      m.header.qdcount) = .ok 0 ∧
    (List.replicate 65536 (DNSQuestion.mk [])).length = 65536 ∧
    (0 : Nat) ≠ 65536 := by
  refine ⟨?_, List.length_replicate _ _, by decide⟩
  have hq : (List.replicate 65536 (DNSQuestion.mk [])).length = 65536 :=
    List.length_replicate _ _
  simp only [DNSMessage.make, DNSHeader.set_qdcount, hq]
  rfl

/-- C10: a freshly constructed answer has its stored name-length offset
initialized to 0, so its typ, cls, ttl and length accessors read and write
at the absolute buffer offsets 0, 2, 4 and 8 — the start of the buffer,
regardless of any encoded name the buffer may already contain. -/
theorem c10_fresh_answer_absolute_offsets (p : List Nat) :
    (DNSAnswer.ofPayload p)._label_len = 0 ∧
    (DNSAnswer.ofPayload p).typ
      = (do let v ← _16bit_get p 0; DNSRRType.ofValue v) ∧
    (DNSAnswer.ofPayload p).cls
      = (do let v ← _16bit_get p 2; DNSRRClass.ofValue v) ∧
    (DNSAnswer.ofPayload p).ttl = _32bit_get p 4 ∧
    (DNSAnswer.ofPayload p).length = _16bit_get p 8 ∧
    (∀ ty, (DNSAnswer.ofPayload p).set_typ ty
      = (_16bit_set p 0 ty.value).map (fun q => ⟨q, 0⟩)) ∧
    (∀ c, (DNSAnswer.ofPayload p).set_cls c
      = (_16bit_set p 2 c.value).map (fun q => ⟨q, 0⟩)) ∧
    (∀ v, (DNSAnswer.ofPayload p).set_ttl v
      = (_32bit_set p 4 v).map (fun q => ⟨q, 0⟩)) ∧
    (∀ v, (DNSAnswer.ofPayload p).set_length v
      = (_16bit_set p 8 v).map (fun q => ⟨q, 0⟩)) :=
  ⟨rfl, rfl, rfl, rfl, rfl, fun _ => rfl, fun _ => rfl, fun _ => rfl,
    fun _ => rfl⟩

theorem getD_append_left (xs ys : List Nat) (i : Nat) (h : i < xs.length) :
    (xs ++ ys).getD i 0 = xs.getD i 0 := by
  simp [List.getD_eq_getElem?_getD, List.getElem?_append_left h]

theorem wf_getD_lt (bs : List Nat) (hwf : BytesWf bs) (i : Nat)
    (h : i < bs.length) : bs.getD i 0 < 256 := by
  rw [List.getD_eq_getElem bs 0 h]
  exact hwf _ (List.getElem_mem h)

theorem parseAnswers_one (payload : List Nat) (offset : Nat) :
    parseAnswers payload offset 1 = (do
      let (name, off1) ← _decode_labels payload offset
      let off2 := off1 + 1
      let answer := DNSAnswer.ofPayload (pySliceN payload off2 (off2 + 10))
      let off3 := off2 + 10
      let answer ← answer.set_name name
      let dataLen ← pyGet payload (off3 : Int)
      let answer ← answer.set_data
        (pySliceN payload (off3 + 1) (off3 + dataLen + 1))
      let off4 := off3 + dataLen + 1
      let (rest, off5) ← parseAnswers payload off4 0
      .ok (answer :: rest, off5)) := rfl

/-- C5 amended: the constructor writes the question and answer counts into
the header through the 16-bit accessor, so after construction qdcount and
ancount equal the respective list lengths reduced modulo 2^16 (and hence
the exact lengths whenever they are below 65536). -/
theorem c5_counts_mod_amended (hdr : DNSHeader) (qs : List DNSQuestion)
    (ans : List DNSAnswer) (h : hdr._payload.length = 12) :
    ∃ m, DNSMessage.make hdr qs ans = .ok m ∧
      m.header.qdcount = .ok (qs.length % 65536) ∧
      m.header.ancount = .ok (ans.length % 65536) ∧
      m.questions = qs ∧ m.answers = ans := by
  have h4 : (4 : Nat) + 1 < hdr._payload.length := by omega
  have hset1 := sixteen_set_coe hdr._payload 4 qs.length h4
  have hlen1 :
      ((hdr._payload.set 4 ((qs.length &&& 0xFF00) >>> 8)).set 5
        (qs.length &&& 0xFF)).length = 12 := by
    simpa using h
  have h6 : (6 : Nat) + 1 <
      ((hdr._payload.set 4 ((qs.length &&& 0xFF00) >>> 8)).set 5
        (qs.length &&& 0xFF)).length := by omega
  have hset2 := sixteen_set_coe _ 6 ans.length h6
  have hmake : DNSMessage.make hdr qs ans = .ok
      ⟨⟨(((hdr._payload.set 4 ((qs.length &&& 0xFF00) >>> 8)).set 5
        (qs.length &&& 0xFF)).set 6 ((ans.length &&& 0xFF00) >>> 8)).set 7
        (ans.length &&& 0xFF)⟩, qs, ans⟩ := by
    simp only [DNSMessage.make, DNSHeader.set_qdcount, DNSHeader.set_ancount]
    rw [show ((4 : Int) = ((4 : Nat) : Int)) from rfl, hset1, exc_map_ok,
      exc_bind_ok]
    rw [show ((6 : Int) = ((6 : Nat) : Int)) from rfl, hset2, exc_map_ok,
      exc_bind_ok]
  refine ⟨_, hmake, ?_, ?_, rfl, rfl⟩
  · simp only [DNSHeader.qdcount]
    rw [show ((4 : Int) = ((4 : Nat) : Int)) from rfl,
      sixteen_get_coe _ 4 (by simp; omega)]
    rw [getD_set_ne _ 7 4 _ (by omega), getD_set_ne _ 6 4 _ (by omega),
      getD_set_ne _ 5 4 _ (by omega), getD_set_self _ 4 _ (by omega),
      getD_set_ne _ 7 5 _ (by omega), getD_set_ne _ 6 5 _ (by omega),
      getD_set_self _ 5 _ (by simp; omega)]
    rw [sixteen_recombine_mod]
  · simp only [DNSHeader.ancount]
    rw [show ((6 : Int) = ((6 : Nat) : Int)) from rfl,
      sixteen_get_coe _ 6 (by simp; omega)]
    rw [getD_set_ne _ 7 6 _ (by omega), getD_set_self _ 6 _ (by omega),
      getD_set_self _ 7 _ (by simp; omega)]
    rw [sixteen_recombine_mod]

/-- C5 amended witness: a 12-byte header with two questions and one answer
gets qdcount 2 and ancount 1. -/
theorem c5_counts_mod_amended_witness :
    ∃ m, DNSMessage.make ⟨List.replicate 12 0⟩
        [DNSQuestion.mk [], DNSQuestion.mk []] [DNSAnswer.ofPayload []]
      = .ok m ∧
      m.header.qdcount = .ok ([DNSQuestion.mk [], DNSQuestion.mk []].length % 65536) ∧
      m.header.ancount = .ok ([DNSAnswer.ofPayload []].length % 65536) ∧
      m.questions = [DNSQuestion.mk [], DNSQuestion.mk []] ∧
      m.answers = [DNSAnswer.ofPayload []] :=
  c5_counts_mod_amended ⟨List.replicate 12 0⟩ _ _ (by decide)

theorem getD_take_lt (bs : List Nat) (n i : Nat) (h : i < n) :
    (bs.take n).getD i 0 = bs.getD i 0 := by
  rcases Nat.lt_or_ge i bs.length with hlt | hge
  · have h1 : i < (bs.take n).length := by
      simp [List.length_take]
      omega
    rw [List.getD_eq_getElem _ _ h1, List.getD_eq_getElem _ _ hlt]
    simp [List.getElem_take]
  · have h1 : (bs.take n).length ≤ i := by
      simp [List.length_take]
      omega
    rw [List.getD_eq_default _ _ h1, List.getD_eq_default _ _ hge]

/-- Specification of the `data` setter: it writes the 16-bit length field
at the stored offset plus 8 (big-endian, two bytes) and replaces the data
region, leaving the stored name-length unchanged. -/
theorem set_data_spec (a : DNSAnswer) (v : List Nat)
    (hlen : a._label_len + 10 ≤ a._payload.length) (hv : v.length < 65536) :
    ∃ a2, a.set_data v = .ok a2 ∧
      a2.length = .ok v.length ∧ a2.data = v ∧
      a2._label_len = a._label_len ∧
      a2._payload.getD (a._label_len + 8) 0 = (v.length &&& 0xFF00) >>> 8 ∧
      a2._payload.getD (a._label_len + 9) 0 = v.length &&& 0xFF := by
  have hoff : ((a._label_len : Int) + 8) = ((a._label_len + 8 : Nat) : Int) := by
    push_cast
    ring
  have hb : a._label_len + 8 + 1 < a._payload.length := by omega
  have hset := sixteen_set_coe a._payload (a._label_len + 8) v.length hb
  have hsl : a.set_length v.length = .ok
      ⟨(a._payload.set (a._label_len + 8) ((v.length &&& 0xFF00) >>> 8)).set
        (a._label_len + 8 + 1) (v.length &&& 0xFF), a._label_len⟩ := by
    simp only [DNSAnswer.set_length]
    rw [hoff, hset, exc_map_ok]
  have hsd : a.set_data v = .ok
      ⟨((a._payload.set (a._label_len + 8) ((v.length &&& 0xFF00) >>> 8)).set
          (a._label_len + 8 + 1) (v.length &&& 0xFF)).take (a._label_len + 10)
        ++ v, a._label_len⟩ := by
    simp only [DNSAnswer.set_data]
    rw [hsl, exc_bind_ok]
  have hg8 : (((a._payload.set (a._label_len + 8)
      ((v.length &&& 0xFF00) >>> 8)).set (a._label_len + 8 + 1)
      (v.length &&& 0xFF)).take (a._label_len + 10) ++ v).getD
      (a._label_len + 8) 0 = (v.length &&& 0xFF00) >>> 8 := by
    rw [getD_append_left _ _ (a._label_len + 8)
        (by simp [List.length_take]; omega)]
    rw [getD_take_lt _ _ _ (by omega)]
    rw [getD_set_ne _ (a._label_len + 8 + 1) (a._label_len + 8) _ (by omega),
      getD_set_self _ (a._label_len + 8) _ (by omega)]
  have hg9 : (((a._payload.set (a._label_len + 8)
      ((v.length &&& 0xFF00) >>> 8)).set (a._label_len + 8 + 1)
      (v.length &&& 0xFF)).take (a._label_len + 10) ++ v).getD
      (a._label_len + 9) 0 = v.length &&& 0xFF := by
    rw [show a._label_len + 9 = a._label_len + 8 + 1 from by omega]
    rw [getD_append_left _ _ (a._label_len + 8 + 1)
        (by simp [List.length_take]; omega)]
    rw [getD_take_lt _ _ _ (by omega)]
    rw [getD_set_self _ (a._label_len + 8 + 1) _ (by simp; omega)]
  refine ⟨_, hsd, ?_, ?_, rfl, hg8, hg9⟩
  · simp only [DNSAnswer.length]
    have hb2 : a._label_len + 8 + 1 <
        (((a._payload.set (a._label_len + 8) ((v.length &&& 0xFF00) >>> 8)).set
            (a._label_len + 8 + 1) (v.length &&& 0xFF)).take (a._label_len + 10)
          ++ v).length := by
      simp [List.length_take]
      omega
    rw [hoff, sixteen_get_coe _ (a._label_len + 8) hb2]
    rw [show a._label_len + 8 + 1 = a._label_len + 9 from by omega] at hb2 ⊢
    rw [hg8, hg9, sixteen_recombine _ hv]
  · simp only [DNSAnswer.data]
    have htl : (((a._payload.set (a._label_len + 8)
        ((v.length &&& 0xFF00) >>> 8)).set (a._label_len + 8 + 1)
        (v.length &&& 0xFF)).take (a._label_len + 10)).length
        = a._label_len + 10 := by
      simp [List.length_take]
      omega
    rw [List.drop_left' htl]

/-- C4 amended: setting `data` does establish the coupling — it writes the
16-bit length field to the new data's byte count (reduced mod 2^16, exact
below 65536) and replaces the data region — but the invariant does not hold
for every answer after any operation sequence, because `length` is also
independently settable (see the counterexample). -/
theorem c4_set_data_couples_length (a : DNSAnswer) (v : List Nat)
    (hlen : a._label_len + 10 ≤ a._payload.length) (hv : v.length < 65536) :
    ∃ a2, a.set_data v = .ok a2 ∧
      a2.length = .ok v.length ∧ a2.data = v ∧
      a2._label_len = a._label_len := by
  obtain ⟨a2, h1, h2, h3, h4, _, _⟩ := set_data_spec a v hlen hv
  exact ⟨a2, h1, h2, h3, h4⟩

/-- C4 amended witness: setting data 8.8.8.8 on a fresh 10-byte answer
yields length 4 and data region 8.8.8.8. -/
theorem c4_set_data_couples_length_witness :
    ∃ a2, (DNSAnswer.ofPayload [0, 0, 0, 0, 0, 0, 0, 0, 0, 0]).set_data
        [8, 8, 8, 8] = .ok a2 ∧
      a2.length = .ok ([8, 8, 8, 8] : List Nat).length ∧
      a2.data = [8, 8, 8, 8] ∧
      a2._label_len = (DNSAnswer.ofPayload [0, 0, 0, 0, 0, 0, 0, 0, 0, 0])._label_len :=
  c4_set_data_couples_length _ _ (by decide) (by decide)

theorem rrtype_ofValue_invalid (v : Nat) (h : ¬(1 ≤ v ∧ v ≤ 16)) :
    DNSRRType.ofValue v = .error "ValueError" := by
  unfold DNSRRType.ofValue
  repeat rw [if_neg (by omega)]

theorem rrclass_ofValue_invalid (v : Nat) (h : ¬(1 ≤ v ∧ v ≤ 4)) :
    DNSRRClass.ofValue v = .error "ValueError" := by
  unfold DNSRRClass.ofValue
  repeat rw [if_neg (by omega)]

/-- C8: reading the typ or cls property of a question or answer whose wire
bytes hold a 16-bit value outside the closed type codes 1..16 respectively
class codes 1..4 fails with the invalid-value error instead of returning a
default member. -/
theorem c8_enum_decode_rejects (q : DNSQuestion) (a : DNSAnswer)
    (v w x y : Nat) :
    ((_16bit_get q._payload ((q._payload.length : Int) - 4) = .ok v) →
      ¬(1 ≤ v ∧ v ≤ 16) → q.typ = .error "ValueError") ∧
    ((_16bit_get q._payload ((q._payload.length : Int) - 2) = .ok w) →
      ¬(1 ≤ w ∧ w ≤ 4) → q.cls = .error "ValueError") ∧
    ((_16bit_get a._payload (a._label_len : Int) = .ok x) →
      ¬(1 ≤ x ∧ x ≤ 16) → a.typ = .error "ValueError") ∧
    ((_16bit_get a._payload ((a._label_len : Int) + 2) = .ok y) →
      ¬(1 ≤ y ∧ y ≤ 4) → a.cls = .error "ValueError") := by
  refine ⟨?_, ?_, ?_, ?_⟩
  · intro hget hout
    simp only [DNSQuestion.typ]
    rw [hget, exc_bind_ok]
    exact rrtype_ofValue_invalid v hout
  · intro hget hout
    simp only [DNSQuestion.cls]
    rw [hget, exc_bind_ok]
    exact rrclass_ofValue_invalid w hout
  · intro hget hout
    simp only [DNSAnswer.typ]
    rw [hget, exc_bind_ok]
    exact rrtype_ofValue_invalid x hout
  · intro hget hout
    simp only [DNSAnswer.cls]
    rw [hget, exc_bind_ok]
    exact rrclass_ofValue_invalid y hout

/-- C8 witness: a question and an answer whose wire type value is 17 and
whose wire class value is 5 are rejected by all four accessors. -/
theorem c8_enum_decode_rejects_witness :
    DNSQuestion.typ ⟨[0, 17, 0, 5]⟩ = .error "ValueError" ∧
    DNSQuestion.cls ⟨[0, 17, 0, 5]⟩ = .error "ValueError" ∧
    DNSAnswer.typ ⟨[0, 17, 0, 5], 0⟩ = .error "ValueError" ∧
    DNSAnswer.cls ⟨[0, 17, 0, 5], 0⟩ = .error "ValueError" :=
  have h := c8_enum_decode_rejects ⟨[0, 17, 0, 5]⟩ ⟨[0, 17, 0, 5], 0⟩ 17 5 17 5
  ⟨h.1 rfl (by decide), h.2.1 rfl (by decide), h.2.2.1 rfl (by decide),
    h.2.2.2 rfl (by decide)⟩

/-- C9: when an answer is parsed, its data length is the single byte right
after the 10-byte fixed block (the cursor advances past exactly that many
data bytes plus the length byte), while the answer object it produces
carries, at stored-offset plus 8, the 16-bit big-endian length field that
the serialize path emits: byte 0 then the length. The name's re-encoding
must succeed (no decoded segment of 256 or more characters), since the
parser writes the name back through the fallible setter. -/
theorem c9_answer_length_width_asymmetry (bs : List Nat) (off p n : Nat)
    (name : List Char) (enc : List Nat) (hwf : BytesWf bs)
    (hdec : _decode_labels bs off = .ok (name, p))
    (henc : _encode_labels name = .ok enc)
    (hn : bs.getD (p + 11) 0 = n) (hle : p + 12 + n ≤ bs.length) :
    ∃ ans, parseAnswers bs off 1 = .ok ([ans], p + 12 + n) ∧
      ans._label_len = enc.length ∧
      ans.data = pySliceN bs (p + 12) (p + 12 + n) ∧
      ans.data.length = n ∧
      ans.length = .ok n ∧
      ans._payload.getD (ans._label_len + 8) 0 = 0 ∧
      ans._payload.getD (ans._label_len + 9) 0 = n := by
  have hn256 : n < 256 := by
    have hx := wf_getD_lt bs hwf (p + 11) (by omega)
    rw [hn] at hx
    exact hx
  have hi0 : (n &&& 0xFF00) >>> 8 = 0 := by
    rw [land_ff00_shr]
    omega
  have hlon : n &&& 0xFF = n := by
    rw [land_ff_eq_mod]
    omega
  have hvlen : (pySliceN bs (p + 11 + 1) (p + 11 + n + 1)).length = n := by
    simp [pySliceN]
    omega
  obtain ⟨a2, hsd, hlen2, hdata2, hll2, hg8, hg9⟩ := set_data_spec
    ⟨enc ++ pySliceN bs (p + 1) (p + 11), enc.length⟩
    (pySliceN bs (p + 11 + 1) (p + 11 + n + 1))
    (by simp [pySliceN]; omega)
    (by rw [hvlen]; omega)
  rw [parseAnswers_one, hdec]
  simp only [exc_bind_ok, DNSAnswer.ofPayload, DNSAnswer.set_name,
    List.drop_zero]
  rw [show p + 1 + 10 = p + 11 from by omega]
  rw [henc]
  simp only [exc_bind_ok]
  rw [pyGet_coe bs (p + 11) (by omega), hn]
  simp only [exc_bind_ok]
  rw [hsd]
  simp only [exc_bind_ok, parseAnswers]
  rw [show p + 11 + n + 1 = p + 12 + n from by omega] at hdata2 ⊢
  refine ⟨a2, rfl, hll2, ?_, ?_, ?_, ?_, ?_⟩
  · rw [hdata2, show p + 11 + 1 = p + 12 from by omega]
  · rw [hdata2, show p + 11 + 1 = p + 12 from by omega]
    have hvlen2 : (pySliceN bs (p + 12) (p + 12 + n)).length = n := by
      simp [pySliceN]
      omega
    exact hvlen2
  · rw [hlen2, hvlen]
  · rw [hll2, hg8, hvlen, hi0]
  · rw [hll2, hg9, hvlen, hlon]

theorem pyAndNot_le (b m : Nat) : pyAndNot b m ≤ b := Nat.sub_le _ _

theorem lor_lt_256 (x y : Nat) (hx : x < 256) (hy : y < 256) :
    x ||| y < 256 := by
  have h : (256 : Nat) = 2 ^ 8 := by norm_num
  rw [h] at hx hy ⊢
  exact Nat.or_lt_two_pow hx hy

theorem land_two_pow_sub_one_eq_mod (v k : Nat) :
    v &&& (2 ^ k - 1) = v % 2 ^ k := Nat.and_pow_two_sub_one_eq_mod v k

theorem bits_mask_shift_le (x m s : Nat) : (x &&& m) >>> s ≤ m >>> s := by
  rw [Nat.shiftRight_eq_div_pow, Nat.shiftRight_eq_div_pow]
  exact Nat.div_le_div_right Nat.and_le_right

theorem bits_set_coe (bs : List Nat) (k mask shift value b : Nat)
    (hb : bs.getD k 0 = b) (h : k < bs.length)
    (hc : pyAndNot b mask < 256)
    (hv : (pyAndNot b mask ||| (value <<< shift)) < 256) :
    _bits_set bs ↑k mask shift value =
      .ok (bs.set k (pyAndNot b mask ||| (value <<< shift))) := by
  unfold _bits_set
  rw [pyGet_coe bs k h, hb, exc_bind_ok, pySet_coe bs k _ h hc, exc_bind_ok,
    pyGet_coe _ k (by simpa using h), getD_set_self bs k _ h, exc_bind_ok,
    pySet_coe _ k _ (by simpa using h) hv, List.set_set]

theorem bit_set_one_coe (bs : List Nat) (k shift b : Nat)
    (hb : bs.getD k 0 = b) (h : k < bs.length)
    (hc : pyAndNot b (1 <<< shift) < 256)
    (hv : (pyAndNot b (1 <<< shift) ||| (1 <<< shift)) < 256) :
    _bit_set bs ↑k shift 1 =
      .ok (bs.set k (pyAndNot b (1 <<< shift) ||| (1 <<< shift))) := by
  unfold _bit_set
  rw [pyGet_coe bs k h, hb, exc_bind_ok, pySet_coe bs k _ h hc, exc_bind_ok]
  rw [if_pos (by omega)]
  rw [pyGet_coe _ k (by simpa using h), getD_set_self bs k _ h, exc_bind_ok,
    pySet_coe _ k _ (by simpa using h) hv, List.set_set]

theorem buildReplyHeader_spec (reqh : DNSHeader) (idv op rdv : Nat)
    (hid : reqh.id = .ok idv) (hop : reqh.opcode = .ok op)
    (hrd : reqh.rd = .ok rdv) (hidlt : idv < 65536) (hople : op ≤ 15)
    (hrdle : rdv ≤ 1) (hne : op ≠ 0) :
    ∃ h2, buildReplyHeader reqh = .ok h2 ∧ h2.rcode = .ok 4 ∧
      h2.id = .ok idv ∧ h2.qr = .ok 1 ∧ h2.opcode = .ok op ∧
      h2.rd = .ok rdv := by
  have hopm : op &&& 0b00001111 = op := by
    rw [show (0b00001111 : Nat) = 2 ^ 4 - 1 from by norm_num,
      land_two_pow_sub_one_eq_mod]
    omega
  have hrdm : rdv &&& 0b00000001 = rdv := by
    rw [show (0b00000001 : Nat) = 2 ^ 1 - 1 from by norm_num,
      land_two_pow_sub_one_eq_mod]
    omega
  have hop8 : op <<< 3 ≤ 120 := by
    rw [Nat.shiftLeft_eq, show ((2 : Nat) ^ 3) = 8 from by norm_num]
    omega
  have hB2a : (128 : Nat) ||| (op <<< 3) < 256 :=
    lor_lt_256 _ _ (by omega) (by omega)
  have hmk : DNSHeader.make (List.replicate 12 0)
      = .ok ⟨[0, 0, 0, 0, 0, 0, 0, 0, 0, 0, 0, 0]⟩ := rfl
  have hsid : DNSHeader.set_id ⟨[0, 0, 0, 0, 0, 0, 0, 0, 0, 0, 0, 0]⟩ idv
      = .ok ⟨[(idv &&& 0xFF00) >>> 8, idv &&& 0xFF,
          0, 0, 0, 0, 0, 0, 0, 0, 0, 0]⟩ := by
    simp only [DNSHeader.set_id]
    rw [show ((0 : Int)) = ((0 : Nat) : Int) from rfl,
      sixteen_set_coe [0, 0, 0, 0, 0, 0, 0, 0, 0, 0, 0, 0] 0 idv (by decide),
      exc_map_ok]
    rfl
  have hsqr : DNSHeader.set_qr ⟨[(idv &&& 0xFF00) >>> 8, idv &&& 0xFF,
        0, 0, 0, 0, 0, 0, 0, 0, 0, 0]⟩ 1
      = .ok ⟨[(idv &&& 0xFF00) >>> 8, idv &&& 0xFF, 128,
          0, 0, 0, 0, 0, 0, 0, 0, 0]⟩ := by
    simp only [DNSHeader.set_qr]
    rw [show ((2 : Int)) = ((2 : Nat) : Int) from rfl,
      bit_set_one_coe [(idv &&& 0xFF00) >>> 8, idv &&& 0xFF,
        0, 0, 0, 0, 0, 0, 0, 0, 0, 0] 2 7 0 rfl (by simp) (by decide)
        (by decide),
      exc_map_ok]
    rw [show (pyAndNot 0 (1 <<< 7) ||| 1 <<< 7 : Nat) = 128 from by decide]
    rfl
  have hsop : DNSHeader.set_opcode ⟨[(idv &&& 0xFF00) >>> 8, idv &&& 0xFF,
        128, 0, 0, 0, 0, 0, 0, 0, 0, 0]⟩ op
      = .ok ⟨[(idv &&& 0xFF00) >>> 8, idv &&& 0xFF, 128 ||| (op <<< 3),
          0, 0, 0, 0, 0, 0, 0, 0, 0]⟩ := by
    simp only [DNSHeader.set_opcode]
    rw [hopm, show ((2 : Int)) = ((2 : Nat) : Int) from rfl,
      bits_set_coe [(idv &&& 0xFF00) >>> 8, idv &&& 0xFF,
        128, 0, 0, 0, 0, 0, 0, 0, 0, 0] 2 0b01111000 3 op 128 rfl (by simp)
        (by decide)
        (by rw [show (pyAndNot 128 0b01111000 : Nat) = 128 from by decide]
            exact hB2a),
      exc_map_ok]
    rw [show (pyAndNot 128 0b01111000 : Nat) = 128 from by decide]
    rfl
  have hsrd : DNSHeader.set_rd ⟨[(idv &&& 0xFF00) >>> 8, idv &&& 0xFF,
        128 ||| (op <<< 3), 0, 0, 0, 0, 0, 0, 0, 0, 0]⟩ rdv
      = .ok ⟨[(idv &&& 0xFF00) >>> 8, idv &&& 0xFF,
          pyAndNot (128 ||| (op <<< 3)) 1 ||| (rdv <<< 0),
          0, 0, 0, 0, 0, 0, 0, 0, 0]⟩ := by
    simp only [DNSHeader.set_rd]
    rw [hrdm, show ((2 : Int)) = ((2 : Nat) : Int) from rfl,
      bits_set_coe [(idv &&& 0xFF00) >>> 8, idv &&& 0xFF,
        128 ||| (op <<< 3), 0, 0, 0, 0, 0, 0, 0, 0, 0] 2 0b00000001 0 rdv
        (128 ||| (op <<< 3)) rfl (by simp)
        (by have := pyAndNot_le (128 ||| (op <<< 3)) 1; omega)
        (by
          refine lor_lt_256 _ _ ?_ ?_
          · have := pyAndNot_le (128 ||| (op <<< 3)) 1
            omega
          · rw [show ((rdv <<< 0 : Nat)) = rdv from rfl]
            omega),
      exc_map_ok]
    rfl
  have hsrc : DNSHeader.set_rcode ⟨[(idv &&& 0xFF00) >>> 8, idv &&& 0xFF,
        pyAndNot (128 ||| (op <<< 3)) 1 ||| (rdv <<< 0),
        0, 0, 0, 0, 0, 0, 0, 0, 0]⟩ 4
      = .ok ⟨[(idv &&& 0xFF00) >>> 8, idv &&& 0xFF,
          pyAndNot (128 ||| (op <<< 3)) 1 ||| (rdv <<< 0), 4,
          0, 0, 0, 0, 0, 0, 0, 0]⟩ := by
    simp only [DNSHeader.set_rcode]
    rw [show ((4 : Nat) &&& 0b00001111) = 4 from by decide,
      show ((3 : Int)) = ((3 : Nat) : Int) from rfl,
      bits_set_coe [(idv &&& 0xFF00) >>> 8, idv &&& 0xFF,
        pyAndNot (128 ||| (op <<< 3)) 1 ||| (rdv <<< 0),
        0, 0, 0, 0, 0, 0, 0, 0, 0] 3 0b00001111 0 4 0 rfl (by simp)
        (by decide) (by decide),
      exc_map_ok]
    rw [show (pyAndNot 0 0b00001111 ||| 4 <<< 0 : Nat) = 4 from by decide]
    rfl
  have hbuild : buildReplyHeader reqh
      = .ok ⟨[(idv &&& 0xFF00) >>> 8, idv &&& 0xFF,
          pyAndNot (128 ||| (op <<< 3)) 1 ||| (rdv <<< 0), 4,
          0, 0, 0, 0, 0, 0, 0, 0]⟩ := by
    simp only [buildReplyHeader]
    rw [hmk, exc_bind_ok, hid, exc_bind_ok, hsid, exc_bind_ok, hsqr,
      exc_bind_ok, hop, exc_bind_ok, hsop, exc_bind_ok, hrd, exc_bind_ok,
      hsrd, exc_bind_ok, if_neg hne, hsrc]
  refine ⟨_, hbuild, ?_, ?_, ?_, ?_, ?_⟩
  · rw [show DNSHeader.rcode ⟨[(idv &&& 0xFF00) >>> 8, idv &&& 0xFF,
        pyAndNot (128 ||| (op <<< 3)) 1 ||| (rdv <<< 0), 4,
        0, 0, 0, 0, 0, 0, 0, 0]⟩
      = .ok ((4 &&& 0b00001111) >>> 0) from rfl]
    rfl
  · rw [show DNSHeader.id ⟨[(idv &&& 0xFF00) >>> 8, idv &&& 0xFF,
        pyAndNot (128 ||| (op <<< 3)) 1 ||| (rdv <<< 0), 4,
        0, 0, 0, 0, 0, 0, 0, 0]⟩
      = .ok ((((idv &&& 0xFF00) >>> 8) <<< 8) + (idv &&& 0xFF)) from rfl]
    rw [sixteen_recombine idv hidlt]
  · rw [show DNSHeader.qr ⟨[(idv &&& 0xFF00) >>> 8, idv &&& 0xFF,
        pyAndNot (128 ||| (op <<< 3)) 1 ||| (rdv <<< 0), 4,
        0, 0, 0, 0, 0, 0, 0, 0]⟩
      = .ok (((pyAndNot (128 ||| (op <<< 3)) 1 ||| (rdv <<< 0))
          &&& (0x01 <<< 7)) >>> 7) from rfl]
    interval_cases op <;> interval_cases rdv <;> rfl
  · rw [show DNSHeader.opcode ⟨[(idv &&& 0xFF00) >>> 8, idv &&& 0xFF,
        pyAndNot (128 ||| (op <<< 3)) 1 ||| (rdv <<< 0), 4,
        0, 0, 0, 0, 0, 0, 0, 0]⟩
      = .ok (((pyAndNot (128 ||| (op <<< 3)) 1 ||| (rdv <<< 0))
          &&& 0b01111000) >>> 3) from rfl]
    interval_cases op <;> interval_cases rdv <;> rfl
  · rw [show DNSHeader.rd ⟨[(idv &&& 0xFF00) >>> 8, idv &&& 0xFF,
        pyAndNot (128 ||| (op <<< 3)) 1 ||| (rdv <<< 0), 4,
        0, 0, 0, 0, 0, 0, 0, 0]⟩
      = .ok (((pyAndNot (128 ||| (op <<< 3)) 1 ||| (rdv <<< 0))
          &&& 0b00000001) >>> 0) from rfl]
    interval_cases op <;> interval_cases rdv <;> rfl

/-- C7: for every well-formed request header whose opcode is nonzero, the
handler builds a normal reply header carrying rcode 4, and the other reply
header fields are exactly what they are for any opcode: id copied, qr set
to 1, opcode copied, rd copied. -/
theorem c7_unsupported_opcode_reply (reqh : DNSHeader)
    (hlen : reqh._payload.length = 12) (hwf : BytesWf reqh._payload)
    (op : Nat) (hop : reqh.opcode = .ok op) (hne : op ≠ 0) :
    ∃ h2, buildReplyHeader reqh = .ok h2 ∧
      h2.rcode = .ok 4 ∧ h2.id = reqh.id ∧ h2.qr = .ok 1 ∧
      h2.opcode = .ok op ∧ h2.rd = reqh.rd := by
  have hopc : reqh.opcode
      = .ok ((reqh._payload.getD 2 0 &&& 0b01111000) >>> 3) := by
    simp only [DNSHeader.opcode]
    unfold _bits_get
    rw [show ((2 : Int)) = ((2 : Nat) : Int) from rfl,
      pyGet_coe _ 2 (by omega), exc_bind_ok]
  have hople : op ≤ 15 := by
    have hopval : op = (reqh._payload.getD 2 0 &&& 0b01111000) >>> 3 := by
      rw [hop] at hopc
      exact (Except.ok.injEq _ _).mp hopc
    have hb := bits_mask_shift_le (reqh._payload.getD 2 0) 0b01111000 3
    have h15 : (0b01111000 : Nat) >>> 3 = 15 := by decide
    omega
  have hrdc : reqh.rd = .ok (reqh._payload.getD 2 0 &&& 0b00000001) := by
    simp only [DNSHeader.rd]
    unfold _bits_get
    rw [show ((2 : Int)) = ((2 : Nat) : Int) from rfl,
      pyGet_coe _ 2 (by omega), exc_bind_ok, Nat.shiftRight_zero]
  have hrdlt : reqh._payload.getD 2 0 &&& 0b00000001 ≤ 1 := Nat.and_le_right
  have hidc : reqh.id
      = .ok ((reqh._payload.getD 0 0 <<< 8) + reqh._payload.getD 1 0) := by
    simp only [DNSHeader.id]
    rw [show ((0 : Int)) = ((0 : Nat) : Int) from rfl,
      sixteen_get_coe _ 0 (by omega)]
  have hidlt : (reqh._payload.getD 0 0 <<< 8) + reqh._payload.getD 1 0
      < 65536 := by
    have h0 := wf_getD_lt _ hwf 0 (by omega)
    have h1 := wf_getD_lt _ hwf 1 (by omega)
    rw [Nat.shiftLeft_eq, show ((2 : Nat) ^ 8) = 256 from by norm_num]
    omega
  obtain ⟨h2, hb, hrc, hid2, hqr2, hop2, hrd2⟩ :=
    buildReplyHeader_spec reqh _ op _ hidc hop hrdc hidlt hople hrdlt hne
  refine ⟨h2, hb, hrc, ?_, hqr2, hop2, ?_⟩
  · rw [hidc]
    exact hid2
  · rw [hrdc]
    exact hrd2

/-- C7 witness: a request header with opcode 1 (and id 0, rd 0). -/
theorem c7_unsupported_opcode_reply_witness :
    ∃ h2, buildReplyHeader ⟨[0, 0, 8, 0, 0, 0, 0, 0, 0, 0, 0, 0]⟩ = .ok h2 ∧
      h2.rcode = .ok 4 ∧
      h2.id = DNSHeader.id ⟨[0, 0, 8, 0, 0, 0, 0, 0, 0, 0, 0, 0]⟩ ∧
      h2.qr = .ok 1 ∧ h2.opcode = .ok 1 ∧
      h2.rd = DNSHeader.rd ⟨[0, 0, 8, 0, 0, 0, 0, 0, 0, 0, 0, 0]⟩ :=
  c7_unsupported_opcode_reply ⟨[0, 0, 8, 0, 0, 0, 0, 0, 0, 0, 0, 0]⟩
    (by decide) (by unfold BytesWf; decide) 1 (by decide) (by decide)

/-- C9 witness: a buffer with name x, a full 10-byte block, data-length
byte 2 and two data bytes, parsed as a single answer. -/
theorem c9_answer_length_width_asymmetry_witness :
    ∃ ans, parseAnswers c9buffer 0 1 = .ok ([ans], 16) ∧
      ans._label_len = ([1, 120, 0] : List Nat).length ∧
      ans.data = pySliceN c9buffer 14 16 ∧
      ans.data.length = 2 ∧
      ans.length = .ok 2 ∧
      ans._payload.getD (ans._label_len + 8) 0 = 0 ∧
      ans._payload.getD (ans._label_len + 9) 0 = 2 :=
  c9_answer_length_width_asymmetry c9buffer 0 2 2 "x".data [1, 120, 0]
    (by unfold BytesWf; decide) rfl rfl rfl (by decide)
